import Mathlib

/-!
Verification of the rugby tactical-decision demo programs.

Shallow embedding of `src/examples/complex_game_simulation.rs` and
`src/examples/modern_rugby_2024.rs`.  Rust `f32` fields are modelled as
exact rationals (`ℚ`): every float literal in the source is a short
decimal, and the decision logic only compares such values against
constant thresholds.  Rust `u32` fields are modelled as `Nat` (the
source never overflows and uses `saturating_sub`), and `i32` results as
`Int`.  The `async` functions only sleep and print; their returned
values are pure, so each is modelled as a `Task` record carrying its
return value and its sleep duration in milliseconds.
-/

namespace Complex

/-- Field position on the pitch (`FieldPosition` in
`complex_game_simulation.rs`). -/
inductive FieldPosition where
  | Own22
  | OwnHalf
  | Midfield
  | OppositionHalf
  | Opposition22
  deriving DecidableEq, Repr

/-- `FieldPosition::risk_level`. -/
def FieldPosition.risk_level : FieldPosition → ℚ
  | .Own22 => 9/10
  | .OwnHalf => 6/10
  | .Midfield => 5/10
  | .OppositionHalf => 3/10
  | .Opposition22 => 1/10

/-- `FieldPosition::kick_preference`. -/
def FieldPosition.kick_preference : FieldPosition → ℚ
  | .Own22 => 8/10
  | .OwnHalf => 6/10
  | .Midfield => 4/10
  | .OppositionHalf => 2/10
  | .Opposition22 => 0

/-- Weather condition (`Weather`). -/
inductive Weather where
  | Sunny
  | Cloudy
  | Rainy
  | Windy
  | StormyRain
  deriving DecidableEq, Repr

/-- `Weather::pass_difficulty`. -/
def Weather.pass_difficulty : Weather → ℚ
  | .Sunny => 0
  | .Cloudy => 1/10
  | .Rainy => 3/10
  | .Windy => 4/10
  | .StormyRain => 6/10

/-- `Weather::kick_preference`. -/
def Weather.kick_preference : Weather → ℚ
  | .Sunny => 3/10
  | .Cloudy => 4/10
  | .Rainy => 6/10
  | .Windy => 2/10
  | .StormyRain => 1/10

/-- Wind state (`Wind`). -/
structure Wind where
  speed : ℚ
  direction : ℚ
  deriving DecidableEq, Repr

/-- Fatigue category (`FatigueLevel`). -/
inductive FatigueLevel where
  | Fresh
  | Moderate
  | Tired
  | Exhausted
  deriving DecidableEq, Repr

/-- `FatigueLevel::from_percentage`. -/
def FatigueLevel.from_percentage (fatigue : ℚ) : FatigueLevel :=
  if fatigue < 2/10 then .Fresh
  else if fatigue < 4/10 then .Moderate
  else if fatigue < 7/10 then .Tired
  else .Exhausted

/-- `FatigueLevel::performance_multiplier`. -/
def FatigueLevel.performance_multiplier : FatigueLevel → ℚ
  | .Fresh => 1
  | .Moderate => 85/100
  | .Tired => 65/100
  | .Exhausted => 4/10

/-- Rule set (`GameRules`). -/
inductive GameRules where
  | Fifteens
  | Sevens
  | Tens
  deriving DecidableEq, Repr

/-- `GameRules::match_duration_secs`. -/
def GameRules.match_duration_secs : GameRules → Nat
  | .Fifteens => 80 * 60
  | .Sevens => 14 * 60
  | .Tens => 60 * 60

/-- `GameRules::fatigue_rate`. -/
def GameRules.fatigue_rate : GameRules → ℚ
  | .Fifteens => 125/10000
  | .Sevens => 5/100
  | .Tens => 167/10000

/-- Score (`Score`). -/
structure Score where
  own : Nat
  opposition : Nat
  deriving DecidableEq, Repr

/-- `Score::difference`: own minus opposition, as a signed integer. -/
def Score.difference (s : Score) : Int :=
  (s.own : Int) - (s.opposition : Int)

/-- `Score::urgency`. -/
def Score.urgency (s : Score) (time_remaining_secs : Nat) : ℚ :=
  let diff := s.difference
  let minutes_left : ℚ := (time_remaining_secs : ℚ) / 60
  if diff > 14 then 2/10
  else if diff > 7 then 4/10
  else if |diff| ≤ 7 then 6/10
  else if diff < -7 ∧ minutes_left < 10 then 9/10
  else 7/10

/-- Team fatigue (`TeamFatigue`). -/
structure TeamFatigue where
  forwards : ℚ
  backs : ℚ
  deriving DecidableEq, Repr

/-- `TeamFatigue::overall`. -/
def TeamFatigue.overall (t : TeamFatigue) : ℚ :=
  t.forwards * (6/10) + t.backs * (4/10)

/-- `TeamFatigue::level`. -/
def TeamFatigue.level (t : TeamFatigue) : FatigueLevel :=
  FatigueLevel.from_percentage t.overall

/-- Defensive line state (`DefenseLine` of `complex_game_simulation.rs`). -/
structure DefenseLine where
  pressure : Bool
  gap_on_left : Bool
  gap_on_right : Bool
  alignment : ℚ
  deriving DecidableEq, Repr

/-- Teammate state (`Teammates` of `complex_game_simulation.rs`). -/
structure Teammates where
  backs_ready : Bool
  forwards_ready : Bool
  support_count : Nat
  deriving DecidableEq, Repr

/-- Whole game state (`GameState`). -/
structure GameState where
  rules : GameRules
  elapsed_time_secs : Nat
  score : Score
  position : FieldPosition
  weather : Weather
  wind : Wind
  fatigue : TeamFatigue
  consecutive_phases : Nat
  penalties_conceded : Nat
  yellow_cards : Nat
  defense : DefenseLine
  teammates : Teammates
  deriving DecidableEq, Repr

/-- `GameState::time_remaining_secs`; `Nat` subtraction is exactly Rust's
`saturating_sub`. -/
def GameState.time_remaining_secs (s : GameState) : Nat :=
  s.rules.match_duration_secs - s.elapsed_time_secs

/-- `GameState::time_pressure`. -/
def GameState.time_pressure (s : GameState) : ℚ :=
  1 - (s.time_remaining_secs : ℚ) / (s.rules.match_duration_secs : ℚ)

/-- Attack direction (`Direction`). -/
inductive Direction where
  | Left
  | Right
  | Center
  deriving DecidableEq, Repr

/-- Kick sub-type (`KickType`). -/
inductive KickType where
  | HighPunt
  | Touch
  | Grubber
  | Crossfield
  deriving DecidableEq, Repr

/-- Tactical decision (`TacticalDecision`): the closed six-variant output
enumeration. -/
inductive TacticalDecision where
  | PassSpread (direction : Direction)
  | Crash
  | Kick (kick_type : KickType)
  | QuickTap
  | Maul
  | Scrum
  deriving DecidableEq, Repr

/-- `make_complex_decision`: the ordered priority rules of
`complex_game_simulation.rs`, lines 401-490.  The `println!` calls and
the `sleep` are the only effects dropped; the returned value is computed
exactly as in the source.  The source binds `time_pressure` from
`state.time_pressure()` before the branches; case 3 reads that binding,
which equals the call made here. -/
def make_complex_decision (state : GameState) : TacticalDecision :=
  -- ケース1: 危険地帯でのプレー
  if state.position = FieldPosition.Own22 ∧ state.defense.pressure = true then
    TacticalDecision.Kick KickType.Touch
  -- ケース2: 点差が大きく時間が少ない
  else if state.score.difference < -7 ∧ state.time_remaining_secs < 600 then
    TacticalDecision.QuickTap
  -- ケース3: 大量リードで守りたい
  else if state.score.difference > 14 ∧ state.time_pressure > 75/100 then
    TacticalDecision.Kick KickType.Touch
  -- ケース4: 疲労が激しい
  else if state.fatigue.level = FatigueLevel.Exhausted ∧ state.teammates.forwards_ready = true then
    TacticalDecision.Crash
  -- ケース5: 悪天候
  else if (state.weather = Weather.Rainy ∨ state.weather = Weather.StormyRain)
      ∧ state.teammates.forwards_ready = true then
    TacticalDecision.Crash
  -- ケース6: 得点圏内
  else if state.position = FieldPosition.Opposition22
      ∧ state.defense.gap_on_left = true
      ∧ state.teammates.backs_ready = true then
    TacticalDecision.PassSpread Direction.Left
  -- ケース7: 連続フェーズが多い
  else if state.consecutive_phases > 10 then
    TacticalDecision.Kick KickType.HighPunt
  -- デフォルト: バランスの取れた判断
  else if state.defense.gap_on_left = true ∧ state.teammates.backs_ready = true then
    TacticalDecision.PassSpread Direction.Left
  else if state.teammates.forwards_ready = true then
    TacticalDecision.Crash
  else
    TacticalDecision.Kick KickType.Touch

/-- Case 1 guard of `make_complex_decision` (lines 421-426). -/
abbrev case1_fires (s : GameState) : Prop :=
  s.position = FieldPosition.Own22 ∧ s.defense.pressure = true

/-- Case 2 guard (lines 429-432). -/
abbrev case2_fires (s : GameState) : Prop :=
  s.score.difference < -7 ∧ s.time_remaining_secs < 600

/-- Case 3 guard (lines 435-440). -/
abbrev case3_fires (s : GameState) : Prop :=
  s.score.difference > 14 ∧ s.time_pressure > 75/100

/-- Case 4 guard (lines 443-446). -/
abbrev case4_fires (s : GameState) : Prop :=
  s.fatigue.level = FatigueLevel.Exhausted ∧ s.teammates.forwards_ready = true

/-- Case 5 guard (lines 449-454). -/
abbrev case5_fires (s : GameState) : Prop :=
  (s.weather = Weather.Rainy ∨ s.weather = Weather.StormyRain)
    ∧ s.teammates.forwards_ready = true

/-- Case 6 guard (lines 457-465). -/
abbrev case6_fires (s : GameState) : Prop :=
  s.position = FieldPosition.Opposition22
    ∧ s.defense.gap_on_left = true
    ∧ s.teammates.backs_ready = true

/-- Case 7 guard (lines 468-473). -/
abbrev case7_fires (s : GameState) : Prop :=
  s.consecutive_phases > 10

/-- None of the seven priority rules of `make_complex_decision` matches. -/
abbrev no_priority_rule_fires (s : GameState) : Prop :=
  ¬case1_fires s ∧ ¬case2_fires s ∧ ¬case3_fires s ∧ ¬case4_fires s
    ∧ ¬case5_fires s ∧ ¬case6_fires s ∧ ¬case7_fires s

/-- The default branch of `make_complex_decision` (lines 475-489), as a
function of the three fields it reads. -/
def default_decision (gap_on_left backs_ready forwards_ready : Bool) : TacticalDecision :=
  if gap_on_left = true ∧ backs_ready = true then
    TacticalDecision.PassSpread Direction.Left
  else if forwards_ready = true then
    TacticalDecision.Crash
  else
    TacticalDecision.Kick KickType.Touch

end Complex

namespace Modern

/-- Error taxonomy of `modern_rugby_2024.rs` (`GameError`): declared but
never constructed by any code path. -/
inductive GameError where
  | Timeout (action : String) (limit_secs : Nat)
  | DecisionError (why : String)
  deriving DecidableEq, Repr

/-- Defensive line state (`DefenseLine` of `modern_rugby_2024.rs`). -/
structure DefenseLine where
  pressure : Bool
  gap_on_left : Bool
  gap_on_right : Bool
  deriving DecidableEq, Repr

/-- `DefenseLine::has_gap`. -/
def DefenseLine.has_gap (d : DefenseLine) : Bool :=
  d.gap_on_left || d.gap_on_right

/-- Attack direction (`Direction` of `modern_rugby_2024.rs`). -/
inductive Direction where
  | Left
  | Right
  | Center
  deriving DecidableEq, Repr

/-- `DefenseLine::optimal_direction`. -/
def DefenseLine.optimal_direction (d : DefenseLine) : Option Direction :=
  if d.gap_on_left then some Direction.Left
  else if d.gap_on_right then some Direction.Right
  else none

/-- Teammate readiness (`Teammates` of `modern_rugby_2024.rs`). -/
structure Teammates where
  backs_ready : Bool
  forwards_ready : Bool
  deriving DecidableEq, Repr

/-- The closed three-variant output enumeration (`Decision`). -/
inductive Decision where
  | Pass (direction : Direction)
  | Crash
  | Kick
  deriving DecidableEq, Repr

/-- `make_decision` (lines 252-266): the `if let Some(direction)` with
`backs_ready` returns a pass; otherwise control falls through to the
pressure/forwards check. -/
def make_decision (_ball : String) (defense : DefenseLine) (teammates : Teammates) : Decision :=
  match defense.optimal_direction with
  | some direction =>
    if teammates.backs_ready then Decision.Pass direction
    else if !defense.pressure && teammates.forwards_ready then Decision.Crash
    else Decision.Kick
  | none =>
    if !defense.pressure && teammates.forwards_ready then Decision.Crash
    else Decision.Kick

/-- An `async` operation of `modern_rugby_2024.rs`, modelled by its
returned value and its `sleep` duration in milliseconds (its only other
effect is console output). -/
structure AsyncTask (α : Type) where
  value : α
  sleep_ms : Nat

/-- `wait_for_ball`: sleeps 2 s, returns the fixed string. -/
def wait_for_ball : AsyncTask String :=
  { value := "ボール受領", sleep_ms := 2000 }

/-- `read_defense`: sleeps 1 s, returns the fixed defensive line. -/
def read_defense : AsyncTask DefenseLine :=
  { value := { pressure := false, gap_on_left := true, gap_on_right := false },
    sleep_ms := 1000 }

/-- `check_teammates`: sleeps 800 ms, returns the fixed readiness. -/
def check_teammates : AsyncTask Teammates :=
  { value := { backs_ready := true, forwards_ready := true }, sleep_ms := 800 }

/-- `signal_backs`: sleeps 500 ms, returns unit. -/
def signal_backs : AsyncTask Unit :=
  { value := (), sleep_ms := 500 }

/-- `signal_forwards`: sleeps 500 ms, returns unit. -/
def signal_forwards : AsyncTask Unit :=
  { value := (), sleep_ms := 500 }

/-- `tokio::join!` on three independent pure tasks: all values are
collected; the tasks sleep concurrently, so the elapsed time is the
maximum of the durations. -/
def join3 {α β γ : Type} (a : AsyncTask α) (b : AsyncTask β) (c : AsyncTask γ) :
    AsyncTask (α × β × γ) :=
  { value := (a.value, b.value, c.value),
    sleep_ms := max a.sleep_ms (max b.sleep_ms c.sleep_ms) }

/-- The same three tasks awaited sequentially in program order: same
values, summed durations. -/
def seq3 {α β γ : Type} (a : AsyncTask α) (b : AsyncTask β) (c : AsyncTask γ) :
    AsyncTask (α × β × γ) :=
  { value := (a.value, b.value, c.value),
    sleep_ms := a.sleep_ms + b.sleep_ms + c.sleep_ms }

/-- `tokio::join!` on two independent pure tasks. -/
def join2 {α β : Type} (a : AsyncTask α) (b : AsyncTask β) : AsyncTask (α × β) :=
  { value := (a.value, b.value), sleep_ms := max a.sleep_ms b.sleep_ms }

/-- The same two tasks awaited sequentially. -/
def seq2 {α β : Type} (a : AsyncTask α) (b : AsyncTask β) : AsyncTask (α × β) :=
  { value := (a.value, b.value), sleep_ms := a.sleep_ms + b.sleep_ms }

/-- The decision computed by `main` as written (lines 322-331): gather
the three inputs with `join!`, send the two signals with `join!`, then
call `make_decision`. -/
def decision_joined : Decision :=
  let gathered := (join3 wait_for_ball read_defense check_teammates).value
  let _signals := (join2 signal_backs signal_forwards).value
  make_decision gathered.1 gathered.2.1 gathered.2.2

/-- The decision computed by the fully sequential variant of `main`:
await each operation in program order. -/
def decision_sequential : Decision :=
  let ball := wait_for_ball.value
  let defense := read_defense.value
  let teammates := check_teammates.value
  let _signals := (seq2 signal_backs signal_forwards).value
  make_decision ball defense teammates

/-- `main` (lines 315-358): every step is infallible, so the modelled
run carries `GameError` in its error type yet always returns `Ok`. -/
def main_run : Except GameError Unit :=
  let gathered := (join3 wait_for_ball read_defense check_teammates).value
  let _signals := (join2 signal_backs signal_forwards).value
  let _decision := make_decision gathered.1 gathered.2.1 gathered.2.2
  Except.ok ()

end Modern

namespace Scenarios

/-- Scenario 1 of `complex_game_simulation.rs` `main` (lines 503-534). -/
def state1 : Complex.GameState :=
  { rules := .Fifteens
    elapsed_time_secs := 75 * 60
    score := { own := 21, opposition := 24 }
    position := .OwnHalf
    weather := .Cloudy
    wind := { speed := 3, direction := 90 }
    fatigue := { forwards := 65/100, backs := 50/100 }
    consecutive_phases := 3
    penalties_conceded := 8
    yellow_cards := 0
    defense := { pressure := true, gap_on_left := false, gap_on_right := false, alignment := 8/10 }
    teammates := { backs_ready := true, forwards_ready := true, support_count := 5 } }

/-- Scenario 2 of `complex_game_simulation.rs` `main` (lines 544-575). -/
def state2 : Complex.GameState :=
  { rules := .Fifteens
    elapsed_time_secs := 35 * 60
    score := { own := 14, opposition := 10 }
    position := .Opposition22
    weather := .Rainy
    wind := { speed := 8, direction := 180 }
    fatigue := { forwards := 40/100, backs := 35/100 }
    consecutive_phases := 12
    penalties_conceded := 3
    yellow_cards := 0
    defense := { pressure := false, gap_on_left := true, gap_on_right := false, alignment := 6/10 }
    teammates := { backs_ready := true, forwards_ready := true, support_count := 7 } }

/-- Deep in the own 22 under pressure, far behind with little time left. -/
def own22_under_pressure : Complex.GameState :=
  { rules := .Fifteens
    elapsed_time_secs := 4500
    score := { own := 0, opposition := 10 }
    position := .Own22
    weather := .Sunny
    wind := { speed := 0, direction := 0 }
    fatigue := { forwards := 0, backs := 0 }
    consecutive_phases := 0
    penalties_conceded := 0
    yellow_cards := 0
    defense := { pressure := true, gap_on_left := false, gap_on_right := false, alignment := 0 }
    teammates := { backs_ready := true, forwards_ready := true, support_count := 0 } }

/-- Far behind with little time left, away from the own 22. -/
def behind_late_midfield : Complex.GameState :=
  { rules := .Fifteens
    elapsed_time_secs := 4500
    score := { own := 0, opposition := 10 }
    position := .Midfield
    weather := .Sunny
    wind := { speed := 0, direction := 0 }
    fatigue := { forwards := 0, backs := 0 }
    consecutive_phases := 0
    penalties_conceded := 0
    yellow_cards := 0
    defense := { pressure := false, gap_on_left := false, gap_on_right := false, alignment := 0 }
    teammates := { backs_ready := true, forwards_ready := true, support_count := 0 } }

/-- Twenty points ahead late in the game. -/
def big_lead_late : Complex.GameState :=
  { rules := .Fifteens
    elapsed_time_secs := 4000
    score := { own := 20, opposition := 0 }
    position := .Midfield
    weather := .Sunny
    wind := { speed := 0, direction := 0 }
    fatigue := { forwards := 0, backs := 0 }
    consecutive_phases := 0
    penalties_conceded := 0
    yellow_cards := 0
    defense := { pressure := false, gap_on_left := false, gap_on_right := false, alignment := 0 }
    teammates := { backs_ready := true, forwards_ready := true, support_count := 0 } }

/-- In the opposition 22 with a left gap and ready backs, and no earlier
priority rule applicable. -/
def opposition22_chance : Complex.GameState :=
  { rules := .Fifteens
    elapsed_time_secs := 0
    score := { own := 0, opposition := 0 }
    position := .Opposition22
    weather := .Sunny
    wind := { speed := 0, direction := 0 }
    fatigue := { forwards := 0, backs := 0 }
    consecutive_phases := 0
    penalties_conceded := 0
    yellow_cards := 0
    defense := { pressure := false, gap_on_left := true, gap_on_right := false, alignment := 0 }
    teammates := { backs_ready := true, forwards_ready := true, support_count := 0 } }

/-- A quiet midfield state matched by none of the seven rules, with a
left gap. -/
def calm_state_gap : Complex.GameState :=
  { rules := .Fifteens
    elapsed_time_secs := 0
    score := { own := 0, opposition := 0 }
    position := .Midfield
    weather := .Sunny
    wind := { speed := 0, direction := 0 }
    fatigue := { forwards := 0, backs := 0 }
    consecutive_phases := 0
    penalties_conceded := 0
    yellow_cards := 0
    defense := { pressure := false, gap_on_left := true, gap_on_right := false, alignment := 0 }
    teammates := { backs_ready := true, forwards_ready := true, support_count := 0 } }

/-- The same quiet state without the left gap. -/
def calm_state_nogap : Complex.GameState :=
  { rules := .Fifteens
    elapsed_time_secs := 0
    score := { own := 0, opposition := 0 }
    position := .Midfield
    weather := .Sunny
    wind := { speed := 0, direction := 0 }
    fatigue := { forwards := 0, backs := 0 }
    consecutive_phases := 0
    penalties_conceded := 0
    yellow_cards := 0
    defense := { pressure := false, gap_on_left := false, gap_on_right := false, alignment := 0 }
    teammates := { backs_ready := true, forwards_ready := true, support_count := 0 } }

/-- `calm_state_gap` with a different penalty count, agreeing with it on
the gap and the readiness flags. -/
def calm_state_gap_variant : Complex.GameState :=
  { rules := .Fifteens
    elapsed_time_secs := 0
    score := { own := 0, opposition := 0 }
    position := .Midfield
    weather := .Sunny
    wind := { speed := 0, direction := 0 }
    fatigue := { forwards := 0, backs := 0 }
    consecutive_phases := 0
    penalties_conceded := 5
    yellow_cards := 0
    defense := { pressure := false, gap_on_left := true, gap_on_right := false, alignment := 0 }
    teammates := { backs_ready := true, forwards_ready := true, support_count := 0 } }

end Scenarios

/-- C1: for every `GameState` whose position is `FieldPosition::Own22`
and whose `defense.pressure` is true, `make_complex_decision` returns
`Kick` with kick type `Touch`. -/
theorem own22_pressure_forces_touch_kick (s : Complex.GameState)
    (hpos : s.position = Complex.FieldPosition.Own22)
    (hpress : s.defense.pressure = true) :
    Complex.make_complex_decision s
      = Complex.TacticalDecision.Kick Complex.KickType.Touch := by
  unfold Complex.make_complex_decision
  rw [if_pos ⟨hpos, hpress⟩]

/-- Witness for C1 at the concrete state `own22_under_pressure`. -/
theorem own22_pressure_forces_touch_kick_witness :
    Scenarios.own22_under_pressure.position = Complex.FieldPosition.Own22
    ∧ Scenarios.own22_under_pressure.defense.pressure = true
    ∧ Complex.make_complex_decision Scenarios.own22_under_pressure
        = Complex.TacticalDecision.Kick Complex.KickType.Touch :=
  ⟨rfl, rfl, own22_pressure_forces_touch_kick Scenarios.own22_under_pressure rfl rfl⟩

/-- C2 counterexample: `own22_under_pressure` is 10 points behind with
300 s left, yet case 1 has higher priority and the decision is a touch
kick, not a quick tap. -/
theorem behind_late_quicktap_counterexample :
    Scenarios.own22_under_pressure.score.difference < -7
    ∧ Scenarios.own22_under_pressure.time_remaining_secs < 600
    ∧ Complex.make_complex_decision Scenarios.own22_under_pressure
        ≠ Complex.TacticalDecision.QuickTap := by
  refine ⟨by decide, by decide, ?_⟩
  decide

/-- C2 amended: for every `GameState` with score deficit over 7 and
under 600 s remaining that is not captured by the higher-priority case 1
(own 22 under pressure), `make_complex_decision` returns `QuickTap`. -/
theorem behind_late_forces_quicktap (s : Complex.GameState)
    (hdiff : s.score.difference < -7)
    (htime : s.time_remaining_secs < 600)
    (hcase1 : ¬(s.position = Complex.FieldPosition.Own22 ∧ s.defense.pressure = true)) :
    Complex.make_complex_decision s = Complex.TacticalDecision.QuickTap := by
  unfold Complex.make_complex_decision
  rw [if_neg hcase1, if_pos ⟨hdiff, htime⟩]

/-- Witness for the amended C2 at the concrete state
`behind_late_midfield`. -/
theorem behind_late_forces_quicktap_witness :
    Scenarios.behind_late_midfield.score.difference < -7
    ∧ Scenarios.behind_late_midfield.time_remaining_secs < 600
    ∧ Complex.make_complex_decision Scenarios.behind_late_midfield
        = Complex.TacticalDecision.QuickTap :=
  ⟨by decide, by decide,
    behind_late_forces_quicktap Scenarios.behind_late_midfield
      (by decide) (by decide) (by decide)⟩

/-- C3: for every `GameState` with score lead over 14 and time pressure
over 0.75, `make_complex_decision` returns `Kick` with kick type
`Touch`.  Case 1 also returns a touch kick and case 2 cannot fire when
the lead exceeds 14, so the property holds regardless of earlier
rules. -/
theorem big_lead_late_forces_touch_kick (s : Complex.GameState)
    (hdiff : s.score.difference > 14)
    (htp : s.time_pressure > 75/100) :
    Complex.make_complex_decision s
      = Complex.TacticalDecision.Kick Complex.KickType.Touch := by
  unfold Complex.make_complex_decision
  by_cases h1 : s.position = Complex.FieldPosition.Own22 ∧ s.defense.pressure = true
  · rw [if_pos h1]
  · rw [if_neg h1, if_neg, if_pos ⟨hdiff, htp⟩]
    rintro ⟨h, -⟩
    omega

/-- Witness for C3 at the concrete state `big_lead_late`. -/
theorem big_lead_late_forces_touch_kick_witness :
    Scenarios.big_lead_late.score.difference > 14
    ∧ Scenarios.big_lead_late.time_pressure > 75/100
    ∧ Complex.make_complex_decision Scenarios.big_lead_late
        = Complex.TacticalDecision.Kick Complex.KickType.Touch := by
  refine ⟨by decide, ?_, ?_⟩
  · norm_num [Scenarios.big_lead_late, Complex.GameState.time_pressure,
      Complex.GameState.time_remaining_secs, Complex.GameRules.match_duration_secs]
  · exact big_lead_late_forces_touch_kick Scenarios.big_lead_late (by decide)
      (by norm_num [Scenarios.big_lead_late, Complex.GameState.time_pressure,
        Complex.GameState.time_remaining_secs, Complex.GameRules.match_duration_secs])

/-- C4 counterexample: scenario 2 of the program's own `main` is in the
opposition 22 with a left gap and ready backs, yet the weather is rainy
and the forwards are ready, so case 5 wins and the decision is `Crash`,
not a pass to the left. -/
theorem opposition22_gap_pass_left_counterexample :
    Scenarios.state2.position = Complex.FieldPosition.Opposition22
    ∧ Scenarios.state2.defense.gap_on_left = true
    ∧ Scenarios.state2.teammates.backs_ready = true
    ∧ Complex.make_complex_decision Scenarios.state2
        ≠ Complex.TacticalDecision.PassSpread Complex.Direction.Left := by
  refine ⟨rfl, rfl, rfl, ?_⟩
  norm_num [Scenarios.state2, Complex.make_complex_decision,
    Complex.GameState.time_pressure, Complex.GameState.time_remaining_secs,
    Complex.GameRules.match_duration_secs, Complex.Score.difference,
    Complex.TeamFatigue.level, Complex.TeamFatigue.overall,
    Complex.FatigueLevel.from_percentage]
  decide

/-- C4 amended: in the opposition 22 with a left gap and ready backs,
`make_complex_decision` returns `PassSpread` to the left provided none
of the higher-priority cases 2-5 matches (case 1 cannot match, the
position not being the own 22). -/
theorem opposition22_gap_forces_pass_left (s : Complex.GameState)
    (hpos : s.position = Complex.FieldPosition.Opposition22)
    (hgap : s.defense.gap_on_left = true)
    (hbacks : s.teammates.backs_ready = true)
    (h2 : ¬Complex.case2_fires s)
    (h3 : ¬Complex.case3_fires s)
    (h4 : ¬Complex.case4_fires s)
    (h5 : ¬Complex.case5_fires s) :
    Complex.make_complex_decision s
      = Complex.TacticalDecision.PassSpread Complex.Direction.Left := by
  unfold Complex.make_complex_decision
  rw [if_neg (by simp [hpos]), if_neg h2, if_neg h3, if_neg h4, if_neg h5,
    if_pos ⟨hpos, hgap, hbacks⟩]

/-- Witness for the amended C4 at the concrete state
`opposition22_chance`. -/
theorem opposition22_gap_forces_pass_left_witness :
    Scenarios.opposition22_chance.position = Complex.FieldPosition.Opposition22
    ∧ Scenarios.opposition22_chance.defense.gap_on_left = true
    ∧ Scenarios.opposition22_chance.teammates.backs_ready = true
    ∧ Complex.make_complex_decision Scenarios.opposition22_chance
        = Complex.TacticalDecision.PassSpread Complex.Direction.Left := by
  refine ⟨rfl, rfl, rfl,
    opposition22_gap_forces_pass_left Scenarios.opposition22_chance rfl rfl rfl
      (by decide) (by decide) ?_ (by decide)⟩
  norm_num [Scenarios.opposition22_chance, Complex.case4_fires,
    Complex.TeamFatigue.level, Complex.TeamFatigue.overall,
    Complex.FatigueLevel.from_percentage]
  decide

/-- C5: both decision functions are total and land in their closed
output enumerations: `make_complex_decision` always yields one of the
six `TacticalDecision` variants, and `make_decision` one of the three
`Decision` variants. -/
theorem decision_functions_total_closed_range :
    (∀ s : Complex.GameState,
      (∃ d, Complex.make_complex_decision s = Complex.TacticalDecision.PassSpread d)
      ∨ Complex.make_complex_decision s = Complex.TacticalDecision.Crash
      ∨ (∃ k, Complex.make_complex_decision s = Complex.TacticalDecision.Kick k)
      ∨ Complex.make_complex_decision s = Complex.TacticalDecision.QuickTap
      ∨ Complex.make_complex_decision s = Complex.TacticalDecision.Maul
      ∨ Complex.make_complex_decision s = Complex.TacticalDecision.Scrum)
    ∧ (∀ (ball : String) (defense : Modern.DefenseLine) (teammates : Modern.Teammates),
      (∃ d, Modern.make_decision ball defense teammates = Modern.Decision.Pass d)
      ∨ Modern.make_decision ball defense teammates = Modern.Decision.Crash
      ∨ Modern.make_decision ball defense teammates = Modern.Decision.Kick) := by
  constructor
  · intro s
    cases h : Complex.make_complex_decision s <;> simp [h]
  · intro ball defense teammates
    cases h : Modern.make_decision ball defense teammates <;> simp [h]

/-- C6: both decision functions are deterministic, pure functions of
their inputs: equal inputs give equal outputs. -/
theorem decision_functions_deterministic :
    (∀ s₁ s₂ : Complex.GameState, s₁ = s₂ →
      Complex.make_complex_decision s₁ = Complex.make_complex_decision s₂)
    ∧ (∀ (b₁ b₂ : String) (d₁ d₂ : Modern.DefenseLine) (t₁ t₂ : Modern.Teammates),
      b₁ = b₂ → d₁ = d₂ → t₁ = t₂ →
      Modern.make_decision b₁ d₁ t₁ = Modern.make_decision b₂ d₂ t₂) :=
  ⟨fun _ _ h => h ▸ rfl,
   fun _ _ _ _ _ _ hb hd ht => hb ▸ hd ▸ ht ▸ rfl⟩

/-- Witness for C6 at scenario 1 and at `main`'s gathered inputs. -/
theorem decision_functions_deterministic_witness :
    Complex.make_complex_decision Scenarios.state1
      = Complex.make_complex_decision Scenarios.state1
    ∧ Modern.make_decision Modern.wait_for_ball.value Modern.read_defense.value
        Modern.check_teammates.value
      = Modern.make_decision Modern.wait_for_ball.value Modern.read_defense.value
        Modern.check_teammates.value :=
  ⟨decision_functions_deterministic.1 Scenarios.state1 Scenarios.state1 rfl,
   decision_functions_deterministic.2 _ _ _ _ _ _ rfl rfl rfl⟩

/-- C7 counterexample: two states matched by no priority rule that agree
on both readiness flags but differ on `defense.gap_on_left` get
different decisions, so readiness alone does not determine the default
branch. -/
theorem default_branch_readiness_counterexample :
    Complex.no_priority_rule_fires Scenarios.calm_state_gap
    ∧ Complex.no_priority_rule_fires Scenarios.calm_state_nogap
    ∧ Scenarios.calm_state_gap.teammates.backs_ready
        = Scenarios.calm_state_nogap.teammates.backs_ready
    ∧ Scenarios.calm_state_gap.teammates.forwards_ready
        = Scenarios.calm_state_nogap.teammates.forwards_ready
    ∧ Complex.make_complex_decision Scenarios.calm_state_gap
        ≠ Complex.make_complex_decision Scenarios.calm_state_nogap := by
  refine ⟨?_, ?_, rfl, rfl, ?_⟩ <;>
    norm_num [Scenarios.calm_state_gap, Scenarios.calm_state_nogap,
      Complex.no_priority_rule_fires, Complex.case1_fires, Complex.case2_fires,
      Complex.case3_fires, Complex.case4_fires, Complex.case5_fires,
      Complex.case6_fires, Complex.case7_fires, Complex.make_complex_decision,
      Complex.GameState.time_pressure, Complex.GameState.time_remaining_secs,
      Complex.GameRules.match_duration_secs, Complex.Score.difference,
      Complex.TeamFatigue.level, Complex.TeamFatigue.overall,
      Complex.FatigueLevel.from_percentage] <;> decide

/-- When no priority rule fires, `make_complex_decision` computes its
default branch, a function of the left gap and the two readiness
flags. -/
lemma make_complex_decision_default (s : Complex.GameState)
    (h : Complex.no_priority_rule_fires s) :
    Complex.make_complex_decision s
      = Complex.default_decision s.defense.gap_on_left
          s.teammates.backs_ready s.teammates.forwards_ready := by
  obtain ⟨h1, h2, h3, h4, h5, h6, h7⟩ := h
  unfold Complex.make_complex_decision Complex.default_decision
  rw [if_neg h1, if_neg h2, if_neg h3, if_neg h4, if_neg h5, if_neg h6, if_neg h7]

/-- C7 amended: for states matched by no priority rule, the decision is
determined by `defense.gap_on_left` together with the two readiness
flags: two such states agreeing on those three fields get the same
decision. -/
theorem default_branch_determined_by_gap_and_readiness
    (s₁ s₂ : Complex.GameState)
    (h₁ : Complex.no_priority_rule_fires s₁)
    (h₂ : Complex.no_priority_rule_fires s₂)
    (hgap : s₁.defense.gap_on_left = s₂.defense.gap_on_left)
    (hbacks : s₁.teammates.backs_ready = s₂.teammates.backs_ready)
    (hfwds : s₁.teammates.forwards_ready = s₂.teammates.forwards_ready) :
    Complex.make_complex_decision s₁ = Complex.make_complex_decision s₂ := by
  rw [make_complex_decision_default s₁ h₁, make_complex_decision_default s₂ h₂,
    hgap, hbacks, hfwds]

/-- Witness for the amended C7: `calm_state_gap` and its variant with a
different penalty count get the same decision. -/
theorem default_branch_determined_witness :
    Complex.no_priority_rule_fires Scenarios.calm_state_gap
    ∧ Complex.no_priority_rule_fires Scenarios.calm_state_gap_variant
    ∧ Complex.make_complex_decision Scenarios.calm_state_gap
        = Complex.make_complex_decision Scenarios.calm_state_gap_variant := by
  have hg : Complex.no_priority_rule_fires Scenarios.calm_state_gap := by
    norm_num [Scenarios.calm_state_gap, Complex.no_priority_rule_fires,
      Complex.case1_fires, Complex.case2_fires, Complex.case3_fires,
      Complex.case4_fires, Complex.case5_fires, Complex.case6_fires,
      Complex.case7_fires, Complex.GameState.time_pressure,
      Complex.GameState.time_remaining_secs, Complex.GameRules.match_duration_secs,
      Complex.Score.difference, Complex.TeamFatigue.level,
      Complex.TeamFatigue.overall, Complex.FatigueLevel.from_percentage]
    decide
  have hv : Complex.no_priority_rule_fires Scenarios.calm_state_gap_variant := by
    norm_num [Scenarios.calm_state_gap_variant, Complex.no_priority_rule_fires,
      Complex.case1_fires, Complex.case2_fires, Complex.case3_fires,
      Complex.case4_fires, Complex.case5_fires, Complex.case6_fires,
      Complex.case7_fires, Complex.GameState.time_pressure,
      Complex.GameState.time_remaining_secs, Complex.GameRules.match_duration_secs,
      Complex.Score.difference, Complex.TeamFatigue.level,
      Complex.TeamFatigue.overall, Complex.FatigueLevel.from_percentage]
    decide
  exact ⟨hg, hv,
    default_branch_determined_by_gap_and_readiness
      Scenarios.calm_state_gap Scenarios.calm_state_gap_variant hg hv rfl rfl rfl⟩

/-- C8: no execution path produces a `GameError`: the modelled `main`
run, which gathers inputs, signals, and decides exactly as the program
does, returns `Ok`. -/
theorem main_never_errors : Modern.main_run = Except.ok () := rfl

/-- C9: joining the three information-gathering operations and the two
signalling operations concurrently yields the same gathered values and
the same final `Decision` as awaiting them sequentially in program
order, while only the elapsed sleep time changes (the joined time never
exceeds the sequential time). -/
theorem join_equals_sequential_observables :
    (Modern.join3 Modern.wait_for_ball Modern.read_defense Modern.check_teammates).value
      = (Modern.seq3 Modern.wait_for_ball Modern.read_defense Modern.check_teammates).value
    ∧ (Modern.join2 Modern.signal_backs Modern.signal_forwards).value
      = (Modern.seq2 Modern.signal_backs Modern.signal_forwards).value
    ∧ Modern.decision_joined = Modern.decision_sequential
    ∧ (Modern.join3 Modern.wait_for_ball Modern.read_defense Modern.check_teammates).sleep_ms
      ≤ (Modern.seq3 Modern.wait_for_ball Modern.read_defense Modern.check_teammates).sleep_ms :=
  ⟨rfl, rfl, rfl, by decide⟩

/-- C10: `make_complex_decision` never returns `Maul` or `Scrum`: of the
six declared `TacticalDecision` variants, those two are unreachable. -/
theorem make_complex_decision_never_maul_or_scrum (s : Complex.GameState) :
    Complex.make_complex_decision s ≠ Complex.TacticalDecision.Maul
    ∧ Complex.make_complex_decision s ≠ Complex.TacticalDecision.Scrum := by
  unfold Complex.make_complex_decision
  repeat' split
  all_goals simp
